import Mathlib

/-!
Verification of the tidal-prediction core of `tide_pred.py`.

The Python source is shallowly embedded: Python `int` becomes `ℤ`, Python
`float` values read from the parameter file become `ℚ` at the parsing layer
(every literal the parser accepts denotes a rational) and `ℝ` inside the
harmonic predictor, fallible code returns `Except`/`Option`, and the two
`except` branches of `read_tide_params` are modelled as distinct outcomes of
a `LoadResult` type while `load_code` is the integer value the Python
function actually returns to its caller.
-/

namespace TidePredWeb

/-- `calendar.isleap(y)`: `y % 4 == 0 and (y % 100 != 0 or y % 400 == 0)`.
Lean's `Int.emod` agrees with Python's `%` on a positive modulus. -/
def isleap (y : ℤ) : Bool :=
  y % 4 == 0 && (y % 100 != 0 || y % 400 == 0)

/-- Number of days the loop body of `TidePred.hours_to_zero` adds for year
`y`: `366.0` if `calendar.isleap(y)` else `365.0` (an integral float, so a
natural number in the model). -/
def days_in_year (y : ℤ) : ℕ :=
  if isleap y then 366 else 365

/-- `TidePred.hours_to_zero(ay, by)`: `d = 0.0`; `if by > ay: for i in
range(ay, by): d += 366.0 if isleap(i) else 365.0`; `return d * 24.0`.
`range(ay, by)` is `[ay, ay+1, ..., by-1]`, empty when `by ≤ ay`, which is
exactly `(by - ay).toNat` consecutive years starting at `ay`; the result is
an integral float, a natural number in the model. -/
def hours_to_zero (ay byr : ℤ) : ℕ :=
  24 * (((List.range (byr - ay).toNat).map (fun (k : ℕ) => days_in_year (ay + (k : ℤ)))).sum)

lemma list_range_map_sum (f : ℤ → ℕ) (ay : ℤ) :
    ∀ n : ℕ, ((List.range n).map (fun (k : ℕ) => f (ay + (k : ℤ)))).sum =
      Finset.sum (Finset.range n) (fun (k : ℕ) => f (ay + (k : ℤ))) := by
  intro n
  induction n with
  | zero => simp
  | succ n ih =>
    rw [List.range_succ, Finset.sum_range_succ, List.map_append, List.sum_append, ih]
    simp

lemma hours_to_zero_eq_range_sum (ay : ℤ) (n : ℕ) :
    hours_to_zero ay (ay + (n : ℤ)) =
      24 * Finset.sum (Finset.range n) (fun (k : ℕ) => days_in_year (ay + (k : ℤ))) := by
  have htn : (ay + (n : ℤ) - ay).toNat = n := by omega
  unfold hours_to_zero
  rw [htn, list_range_map_sum]

lemma ico_insert_top (ay b : ℤ) (h : ay ≤ b) :
    Finset.Ico ay (b + 1) = insert b (Finset.Ico ay b) := by
  ext x
  simp only [Finset.mem_Ico, Finset.mem_insert]
  omega

lemma sum_ico_eq_sum_range (f : ℤ → ℤ) (ay : ℤ) :
    ∀ n : ℕ, Finset.sum (Finset.Ico ay (ay + (n : ℤ))) f =
      Finset.sum (Finset.range n) (fun k => f (ay + (k : ℤ))) := by
  intro n
  induction n with
  | zero => simp
  | succ n ih =>
    have hcast : ay + ((n : ℤ) + 1) = (ay + (n : ℤ)) + 1 := by ring
    rw [Nat.cast_succ, hcast, ico_insert_top ay (ay + (n : ℤ)) (by omega),
      Finset.sum_insert (by simp), Finset.sum_range_succ, ih]
    ring

lemma hours_to_zero_succ (ay b : ℤ) (h : ay ≤ b) :
    hours_to_zero ay (b + 1) = hours_to_zero ay b + 24 * days_in_year b := by
  obtain ⟨n, rfl⟩ : ∃ n : ℕ, b = ay + (n : ℤ) := ⟨(b - ay).toNat, by omega⟩
  have h1 : ay + (n : ℤ) + 1 = ay + ((n + 1 : ℕ) : ℤ) := by push_cast; ring
  rw [h1, hours_to_zero_eq_range_sum, hours_to_zero_eq_range_sum, Finset.sum_range_succ]
  ring

lemma hours_to_zero_lt_succ (ay b : ℤ) (h : ay ≤ b) :
    hours_to_zero ay b < hours_to_zero ay (b + 1) := by
  rw [hours_to_zero_succ ay b h]
  have : 365 ≤ days_in_year b := by unfold days_in_year; split <;> omega
  omega

/-! ### Python string primitives used by `read_tide_params`

Lines are modelled without their terminating newline (every use in the
source either searches for markers that contain no newline or strips the
line first, so the terminator is unobservable). The numeric acceptors model
Python's `int()` and `float()` on ASCII decimal literals: optional
surrounding whitespace, optional sign, digits, and for `float` an optional
fraction and exponent. (Python additionally accepts underscore digit
separators, unicode digits and `inf`/`nan`; none occur in tide parameter
files and they are outside this model.) -/

/-- The six ASCII whitespace characters of Python's `str.strip()` /
`str.split()`. -/
def isPyWs (c : Char) : Bool :=
  c = ' ' || c = '\t' || c = '\n' || c = '\r' || c = '\x0b' || c = '\x0c'

/-- Python `str.strip()` on the character list of a string. -/
def pyStripL (l : List Char) : List Char :=
  ((l.dropWhile isPyWs).reverse.dropWhile isPyWs).reverse

/-- Split a character list at every character satisfying `p`, keeping empty
pieces (the behaviour of Python `str.split(sep)` for a one-character
separator, before empties are discarded). -/
def splitOnP (p : Char → Bool) : List Char → List (List Char)
  | [] => [[]]
  | c :: cs =>
    let r := splitOnP p cs
    if p c then [] :: r
    else
      match r with
      | [] => [[c]]
      | h :: t => (c :: h) :: t

/-- `s.split(' ')` followed by dropping empty parts, as in
`[p for p in s.split(' ') if p]` (tide_pred.py line 79): splits on runs of
the space character only. -/
def pySplitSpaceL (l : List Char) : List (List Char) :=
  (splitOnP (fun c => c = ' ') l).filter (fun t => ¬ t.isEmpty)

/-- Python `str.split()` with no argument: split on runs of whitespace,
discarding empty parts. -/
def pySplitWsL (l : List Char) : List (List Char) :=
  (splitOnP isPyWs l).filter (fun t => ¬ t.isEmpty)

/-- Whether `pat` occurs as a prefix of `l` (Python `str.startswith`). -/
def listStartsWith : List Char → List Char → Bool
  | [], _ => true
  | _ :: _, [] => false
  | p :: ps, c :: cs => p == c && listStartsWith ps cs

/-- Whether `pat` occurs contiguously inside `l` (Python `pat in line`). -/
def listHasSub (pat : List Char) : List Char → Bool
  | [] => listStartsWith pat []
  | c :: cs => listStartsWith pat (c :: cs) || listHasSub pat cs

/-- Python `pat in line` on strings. -/
def lineHas (line : String) (pat : List Char) : Bool :=
  listHasSub pat line.data

/-- The numeric value of an ASCII digit. -/
def digitVal (c : Char) : Option ℕ :=
  if 48 ≤ c.toNat ∧ c.toNat ≤ 57 then some (c.toNat - 48) else none

/-- Value of a digit run appended to accumulator `acc`; `none` on any
non-digit. -/
def digitsCore : List Char → ℕ → Option ℕ
  | [], acc => some acc
  | c :: cs, acc =>
    match digitVal c with
    | some d => digitsCore cs (10 * acc + d)
    | none => none

/-- Value of a non-empty all-digit run (`none` when empty or non-digit). -/
def digitsNE (l : List Char) : Option ℕ :=
  if l.isEmpty then none else digitsCore l 0

/-- Value of a possibly-empty all-digit run (an empty run counts as 0, as in
the integer or fractional part of `"1."` / `".5"`). -/
def digitsMaybe (l : List Char) : Option ℕ :=
  digitsCore l 0

/-- Signed decimal integer: optional sign then a non-empty digit run. -/
def pyIntCore : List Char → Option ℤ
  | '-' :: ds => (digitsNE ds).map (fun n => -(n : ℤ))
  | '+' :: ds => (digitsNE ds).map (fun n => (n : ℤ))
  | ds => (digitsNE ds).map (fun n => (n : ℤ))

/-- Python `int(s)` on a string's characters (strips, then signed digits). -/
def pyIntL (l : List Char) : Option ℤ :=
  pyIntCore (pyStripL l)

/-- Split at the first character satisfying `p`: the part before it and,
when it occurs, the part after it. -/
def splitFirst (p : Char → Bool) : List Char → List Char × Option (List Char)
  | [] => ([], none)
  | c :: cs =>
    if p c then ([], some cs)
    else
      let r := splitFirst p cs
      (c :: r.1, r.2)

/-- Python `float(s)` on a string's characters, yielding the exact rational
value of an accepted decimal literal: strip, optional sign, mantissa
(digits with optional `.` and at least one digit overall), optional
`e`/`E` exponent with its own optional sign. -/
def pyFloatL (l : List Char) : Option ℚ :=
  let t0 := pyStripL l
  let sgn : ℚ × List Char :=
    match t0 with
    | '-' :: r => (-1, r)
    | '+' :: r => (1, r)
    | r => (1, r)
  let m := splitFirst (fun c => c = 'e' || c = 'E') sgn.2
  let mval : Option ℚ :=
    match splitFirst (fun c => c = '.') m.1 with
    | (ip, none) => (digitsNE ip).map (fun n => (n : ℚ))
    | (ip, some fp) =>
      if ip.isEmpty ∧ fp.isEmpty then none
      else
        match digitsMaybe ip, digitsMaybe fp with
        | some a, some b => some ((a : ℚ) + (b : ℚ) / ((10 : ℚ) ^ fp.length))
        | _, _ => none
  let eval : Option ℤ :=
    match m.2 with
    | none => some 0
    | some ec => pyIntCore ec
  match mval, eval with
  | some mv, some e => some (sgn.1 * mv * (10 : ℚ) ^ e)
  | _, _ => none

/-! ### The parameter-file scanner `TidePred.read_tide_params` -/

/-- Marker token `"Observed Year"` (tide_pred.py line 53). -/
def markerYear : List Char := ("Observed Year").data

/-- Marker token `"分潮數"` (tide_pred.py line 60). -/
def markerCount : List Char := ("分潮數").data

/-- Marker token `"平均潮位(CM)"` (tide_pred.py line 60). -/
def markerMean : List Char := ("平均潮位(CM)").data

/-- Marker token `"Cj(CM)"` (tide_pred.py line 69). -/
def markerCj : List Char := ("Cj(CM)").data

/-- Marker token `"Sj(CM)"` (tide_pred.py line 69). -/
def markerSj : List Char := ("Sj(CM)").data

/-- Mutable fields the scan loop of `read_tide_params` writes before the
data table: `self.tp.param_year`, `self.tp.h0`, `self.no_of_sub_tide`
(all start at their 0 defaults from `TideParam()` / `__init__`). -/
structure ScanSt where
  param_year : ℤ
  h0 : ℚ
  no_of_sub_tide : ℤ

/-- Initial scan state (fresh `TidePred` object). -/
def initScan : ScanSt := ⟨0, 0, 0⟩

/-- The header scan of `read_tide_params` (lines 51-71): one pass over the
lines; `"Observed Year"` makes the next line parse as the year,
a line holding both `"分潮數"` and `"平均潮位(CM)"` makes the next line parse
as count and mean level when it has at least 2 whitespace fields, and a line
holding both `"Cj(CM)"` and `"Sj(CM)"` stops the scan, returning the suffix
after it (the data table region). `Except.error` models a `ValueError`
raised by `int()`/`float()`. -/
def scanLines : List String → ScanSt → Except Unit (ScanSt × Option (List String))
  | [], st => Except.ok (st, none)
  | line :: rest, st =>
    if lineHas line markerYear then
      match rest with
      | [] => scanLines rest st
      | nxt :: _ =>
        match pyIntL nxt.data with
        | none => Except.error ()
        | some y => scanLines rest { st with param_year := y }
    else if lineHas line markerCount && lineHas line markerMean then
      match rest with
      | [] => scanLines rest st
      | nxt :: _ =>
        let parts := pySplitWsL nxt.data
        if 2 ≤ parts.length then
          match pyIntL (parts.getD 0 []), pyFloatL (parts.getD 1 []) with
          | some n, some h => scanLines rest { st with no_of_sub_tide := n, h0 := h }
          | _, _ => Except.error ()
        else scanLines rest st
    else if lineHas line markerCj && lineHas line markerSj then
      Except.ok (st, some rest)
    else scanLines rest st

/-- One captured constituent row: name, period, Cj, Sj (fields 0, 1, 4, 5 of
the row; fields 2 and 3 are read past, never stored). -/
abbrev Row := List Char × ℚ × ℚ × ℚ

/-- The data-table loop of `read_tide_params` (lines 75-85): for each of the
first `n` lines of the table region (missing lines at the end of the file
are silently skipped), strip it and split it on runs of spaces; a row with
fewer than 6 fields is silently skipped; otherwise fields 1, 4, 5 must
convert as floats (`Except.error` models the `ValueError`) and the row is
captured. -/
def readRows : List String → ℕ → Except Unit (List Row)
  | _, 0 => Except.ok []
  | [], _ + 1 => Except.ok []
  | line :: rest, n + 1 =>
    let parts := pySplitSpaceL (pyStripL line.data)
    if 6 ≤ parts.length then
      match pyFloatL (parts.getD 1 []), pyFloatL (parts.getD 4 []), pyFloatL (parts.getD 5 []) with
      | some p, some c, some s =>
        (readRows rest n).map (fun rs => (parts.getD 0 [], p, c, s) :: rs)
      | _, _, _ => Except.error ()
    else readRows rest n

/-- The parameter set as stored on the Python object after a load: exact
rational values for the float fields. -/
structure RawParams where
  param_year : ℤ
  h0 : ℚ
  no_of_sub_tide : ℤ
  tide_name : List String
  cj : List ℚ
  sj : List ℚ
  sub_tide_period : List ℚ
deriving DecidableEq

/-- The guard of line 73: rows are read only when the table header was found
and `no_of_sub_tide > 0`; otherwise no row is captured. -/
def tableRows (tblQ : Option (List String)) (count : ℤ) : Except Unit (List Row) :=
  match tblQ with
  | some tbl => if 0 < count then readRows tbl count.toNat else Except.ok []
  | none => Except.ok []

/-- Scan phase plus table phase of `read_tide_params` (everything inside the
`try` block before the final validation). -/
def parsePhase (lines : List String) : Except Unit RawParams :=
  match scanLines lines initScan with
  | Except.error e => Except.error e
  | Except.ok (st, tblQ) =>
    match tableRows tblQ st.no_of_sub_tide with
    | Except.error e => Except.error e
    | Except.ok rows =>
      Except.ok
        { param_year := st.param_year
          h0 := st.h0
          no_of_sub_tide := st.no_of_sub_tide
          tide_name := rows.map (fun r => String.mk r.1)
          cj := rows.map (fun r => r.2.2.1)
          sj := rows.map (fun r => r.2.2.2)
          sub_tide_period := rows.map (fun r => r.2.1) }

/-- Observable outcome of `read_tide_params`: success, the
`FileNotFoundError` handler (line 92), or the `ValueError`/`IndexError`
handler (line 95). The two failure handlers print different diagnostics but
both make the function return `-1` — see `load_code`. -/
inductive LoadResult where
  | success (p : RawParams)
  | notFound
  | parseError
deriving DecidableEq

/-- `TidePred.read_tide_params` on a file modelled as `none` (the path does
not exist: `FileNotFoundError` from `open`) or `some lines` (its lines).
The final validation (line 88) raises — hence lands in the
`ValueError` handler — when the year is 0, the count is 0, or no
constituent name was captured. -/
def read_tide_params (file : Option (List String)) : LoadResult :=
  match file with
  | none => LoadResult.notFound
  | some lines =>
    match parsePhase lines with
    | Except.error _ => LoadResult.parseError
    | Except.ok p =>
      if p.param_year = 0 ∨ p.no_of_sub_tide = 0 ∨ p.tide_name = [] then LoadResult.parseError
      else LoadResult.success p

/-- The integer `read_tide_params` actually returns to its caller: `0` on
success, `-1` from both `except` branches. -/
def load_code (file : Option (List String)) : ℤ :=
  match read_tide_params file with
  | LoadResult.success _ => 0
  | _ => -1

/-- Whether a load outcome is a success. -/
def isSuccess : LoadResult → Bool
  | LoadResult.success _ => true
  | _ => false

/-- Default parameter record (the fresh-object state). -/
def emptyRaw : RawParams := ⟨0, 0, 0, [], [], [], []⟩

/-- The parameter set carried by a successful load outcome. -/
def loadedParams : LoadResult → RawParams
  | LoadResult.success p => p
  | _ => emptyRaw

/-! ### The predictor `TidePred.tidal_pred`

Floats inside the predictor are modelled as real numbers; the two runtime
exceptions the arithmetic can raise in Python — `IndexError` from `self.tp.
sub_tide_period[i]` / `cj[i]` / `sj[i]` when a list is shorter than the
loop bound, and `ZeroDivisionError` from dividing by a period of `0.0` —
are modelled as `Except.error`. -/

/-- The `TideParam` dataclass with its float fields as reals. -/
structure TideParam where
  param_year : ℤ
  h0 : ℝ
  tide_name : List String
  cj : List ℝ
  sj : List ℝ
  sub_tide_period : List ℝ

/-- A `TidePred` object: its `tp` parameter record and `no_of_sub_tide`. -/
structure TidePred where
  tp : TideParam
  no_of_sub_tide : ℕ

/-- A `datetime` value, written as the instant `Jan 1, 00:00 of year` plus
`hours` hours; in the canonical form used everywhere (with
`0 ≤ hours < 24 · daysInYear`) the field `year` is the instant's calendar
year, i.e. Python's `tb.year`. -/
structure Timestamp where
  year : ℤ
  hours : ℝ

/-- Runtime exceptions reachable from `tidal_pred`. -/
inductive PyErr where
  | indexError
  | zeroDiv
deriving DecidableEq

noncomputable section

/-- The body of one iteration of the loop in `TidePred.h_tide_comp`
(lines 155-157): look up the period (may `IndexError`), divide (may
`ZeroDivisionError` when the period is `0.0`), look up `cj[i]` and `sj[i]`
(may `IndexError`), and form `cj[i]·cos(angle) + sj[i]·sin(angle)` with
`angle = 2π·t/period`. -/
def h_tide_term (st : TidePred) (t : ℝ) (i : ℕ) : Except PyErr ℝ :=
  match st.tp.sub_tide_period[i]? with
  | none => Except.error PyErr.indexError
  | some p =>
    if p = 0 then Except.error PyErr.zeroDiv
    else
      match st.tp.cj[i]? with
      | none => Except.error PyErr.indexError
      | some c =>
        match st.tp.sj[i]? with
        | none => Except.error PyErr.indexError
        | some s =>
          Except.ok (c * Real.cos (2 * Real.pi * t / p) + s * Real.sin (2 * Real.pi * t / p))

/-- `TidePred.h_tide_comp(m, t)`: `total = h0`; for `i in range(m)` add the
`i`-th harmonic term; the first exception raised by the loop aborts the
whole computation. -/
def h_tide_comp (st : TidePred) : ℕ → ℝ → Except PyErr ℝ
  | 0, _ => Except.ok st.tp.h0
  | m + 1, t =>
    match h_tide_comp st m t with
    | Except.error e => Except.error e
    | Except.ok acc =>
      match h_tide_term st t m with
      | Except.error e => Except.error e
      | Except.ok x => Except.ok (acc + x)

/-- `TidePred.tidal_pred(tb)` (lines 132-147): `shift_time =
hours_to_zero(param_year, tb.year)`; `t0` is the hour count from one hour
before New Year 00:00 of `tb.year` to `tb` (so `tb.hours + 1`); the result
is `0.01 · h_tide_comp(no_of_sub_tide, t0 + shift_time)`. -/
def tidal_pred (st : TidePred) (tb : Timestamp) : Except PyErr ℝ :=
  let shift_time : ℝ := (hours_to_zero st.tp.param_year tb.year : ℕ)
  let t0 : ℝ := tb.hours + 1
  (h_tide_comp st st.no_of_sub_tide (t0 + shift_time)).map (fun h => 0.01 * h)

/-- The `TidePred` object state produced by a successful load: the exact
rational field values injected into the reals, and the loop bound
`no_of_sub_tide` (Python `range` over a negative bound is empty, hence
`toNat`). -/
def toTidePred (p : RawParams) : TidePred :=
  { tp :=
      { param_year := p.param_year
        h0 := (p.h0 : ℝ)
        tide_name := p.tide_name
        cj := p.cj.map (fun q => (q : ℝ))
        sj := p.sj.map (fun q => (q : ℝ))
        sub_tide_period := p.sub_tide_period.map (fun q => (q : ℝ)) }
    no_of_sub_tide := p.no_of_sub_tide.toNat }

/-- `HourlyReport.generate_hourly_report(year)` (lines 260-272): for each
day `i` of the year (366 on a leap year, else 365) and hour `j < 24`,
predict at `Jan 1 of year + i days + j hours`. Day-major, hour-minor. -/
def generate_hourly_report (st : TidePred) (year : ℤ) : List (List (Except PyErr ℝ)) :=
  (List.range (days_in_year year)).map (fun (i : ℕ) =>
    (List.range 24).map (fun (j : ℕ) =>
      tidal_pred st ⟨year, ((24 * i + j : ℕ) : ℝ)⟩))

/-- The `__main__` control flow around the core (lines 427-432): load the
parameter file via `init_report`; on a `-1` code exit before any
prediction, otherwise generate the hourly grid for the requested year. -/
def run_prediction (file : Option (List String)) (year : ℤ) :
    Option (List (List (Except PyErr ℝ))) :=
  match read_tide_params file with
  | LoadResult.success p => some (generate_hourly_report (toTidePred p) year)
  | _ => none

end

/-- The spec's invariants for a loaded parameter set (spec section 3):
the count equals the length of the constituent lists and is positive, the
base year is non-zero, and every period is positive. -/
def validParams (st : TidePred) : Prop :=
  st.no_of_sub_tide = st.tp.tide_name.length ∧
  st.no_of_sub_tide = st.tp.cj.length ∧
  st.no_of_sub_tide = st.tp.sj.length ∧
  st.no_of_sub_tide = st.tp.sub_tide_period.length ∧
  0 < st.no_of_sub_tide ∧
  st.tp.param_year ≠ 0 ∧
  ∀ p ∈ st.tp.sub_tide_period, 0 < p

/-! ### Helper lemmas about the predictor -/

lemma h_tide_term_ok (st : TidePred) (t : ℝ) (i : ℕ)
    (hc : i < st.tp.cj.length) (hs : i < st.tp.sj.length)
    (hp : i < st.tp.sub_tide_period.length)
    (hnz : st.tp.sub_tide_period.getD i 0 ≠ 0) :
    h_tide_term st t i = Except.ok
      (st.tp.cj.getD i 0 * Real.cos (2 * Real.pi * t / st.tp.sub_tide_period.getD i 0) +
       st.tp.sj.getD i 0 * Real.sin (2 * Real.pi * t / st.tp.sub_tide_period.getD i 0)) := by
  unfold h_tide_term
  rw [List.getElem?_eq_getElem hp, List.getElem?_eq_getElem hc, List.getElem?_eq_getElem hs]
  rw [List.getD_eq_getElem _ _ hp] at hnz
  rw [List.getD_eq_getElem _ _ hp, List.getD_eq_getElem _ _ hc, List.getD_eq_getElem _ _ hs]
  simp [hnz]

lemma h_tide_comp_ok (st : TidePred) (t : ℝ) :
    ∀ m : ℕ, m ≤ st.tp.cj.length → m ≤ st.tp.sj.length →
      m ≤ st.tp.sub_tide_period.length →
      (∀ i, i < m → st.tp.sub_tide_period.getD i 0 ≠ 0) →
      h_tide_comp st m t = Except.ok (st.tp.h0 +
        Finset.sum (Finset.range m) (fun (i : ℕ) =>
          st.tp.cj.getD i 0 * Real.cos (2 * Real.pi * t / st.tp.sub_tide_period.getD i 0) +
          st.tp.sj.getD i 0 * Real.sin (2 * Real.pi * t / st.tp.sub_tide_period.getD i 0))) := by
  intro m
  induction m with
  | zero => intro _ _ _ _; simp [h_tide_comp]
  | succ m ih =>
    intro hc hs hp hnz
    have hcm : m < st.tp.cj.length := by omega
    have hsm : m < st.tp.sj.length := by omega
    have hpm : m < st.tp.sub_tide_period.length := by omega
    unfold h_tide_comp
    rw [ih (by omega) (by omega) (by omega) (fun i hi => hnz i (by omega)),
      h_tide_term_ok st t m hcm hsm hpm (hnz m (by omega)),
      Finset.sum_range_succ]
    exact congrArg Except.ok (add_assoc _ _ _)

lemma validParams_period_ne (st : TidePred) (h : validParams st) :
    ∀ i, i < st.no_of_sub_tide → st.tp.sub_tide_period.getD i 0 ≠ 0 := by
  obtain ⟨_, _, _, h4, _, _, h7⟩ := h
  intro i hi
  have hilen : i < st.tp.sub_tide_period.length := by omega
  rw [List.getD_eq_getElem _ _ hilen]
  exact ne_of_gt (h7 _ (List.getElem_mem hilen))

lemma tidal_pred_ok (st : TidePred) (tb : Timestamp) (h : validParams st) :
    tidal_pred st tb = Except.ok (0.01 * (st.tp.h0 +
      Finset.sum (Finset.range st.no_of_sub_tide) (fun (i : ℕ) =>
        st.tp.cj.getD i 0 * Real.cos (2 * Real.pi *
          ((tb.hours + 1) + (hours_to_zero st.tp.param_year tb.year : ℕ)) /
          st.tp.sub_tide_period.getD i 0) +
        st.tp.sj.getD i 0 * Real.sin (2 * Real.pi *
          ((tb.hours + 1) + (hours_to_zero st.tp.param_year tb.year : ℕ)) /
          st.tp.sub_tide_period.getD i 0)))) := by
  have hnz := validParams_period_ne st h
  obtain ⟨h1, h2, h3, h4, h5, h6, h7⟩ := h
  have hcomp := h_tide_comp_ok st
    ((tb.hours + 1) + ((hours_to_zero st.tp.param_year tb.year : ℕ) : ℝ))
    st.no_of_sub_tide (by omega) (by omega) (by omega) hnz
  unfold tidal_pred
  simp only [hcomp]
  rfl

/-! ### `calculate_rmse` (lines 292-300) -/

noncomputable section

/-- `calculate_rmse(observed, predicted)`: square the positional differences
`(p - o)**2` over `zip(observed, predicted)` (which truncates at the shorter
list), return `0.0` for an empty pair list, else the square root of the mean
squared error. -/
def calculate_rmse (observed predicted : List ℝ) : ℝ :=
  let squared_errors := List.zipWith (fun o p => (p - o) ^ 2) observed predicted
  if squared_errors.isEmpty then 0
  else Real.sqrt (squared_errors.sum / (squared_errors.length : ℝ))

end

lemma calculate_rmse_eq_sqrt (observed predicted : List ℝ) :
    calculate_rmse observed predicted =
      Real.sqrt ((List.zipWith (fun o p => (p - o) ^ 2) observed predicted).sum /
        ((List.zipWith (fun o p => (p - o) ^ 2) observed predicted).length : ℝ)) := by
  unfold calculate_rmse
  by_cases h : (List.zipWith (fun o p => (p - o) ^ 2) observed predicted).isEmpty
  · rw [if_pos h]
    rw [List.isEmpty_iff] at h
    rw [h]
    simp
  · rw [if_neg h]

lemma zipWith_take_min (f : ℝ → ℝ → ℝ) :
    ∀ o p : List ℝ, List.zipWith f o p =
      List.zipWith f (o.take (min o.length p.length)) (p.take (min o.length p.length)) := by
  intro o
  induction o with
  | nil => intro p; simp
  | cons a o ih =>
    intro p
    cases p with
    | nil => simp
    | cons b p =>
      simp only [List.zipWith_cons_cons, List.length_cons, Nat.succ_min_succ, List.take_succ_cons]
      rw [← ih p]

/-! ### Helper lemmas about the parser -/

lemma readRows_length_le : ∀ (tbl : List String) (n : ℕ) (rows : List Row),
    readRows tbl n = Except.ok rows → rows.length ≤ n := by
  intro tbl
  induction tbl with
  | nil =>
    intro n rows h
    cases n with
    | zero =>
      simp only [readRows, Except.ok.injEq] at h
      simp [← h]
    | succ n =>
      simp only [readRows, Except.ok.injEq] at h
      simp [← h]
  | cons line rest ih =>
    intro n rows h
    cases n with
    | zero =>
      simp only [readRows, Except.ok.injEq] at h
      simp [← h]
    | succ n =>
      simp only [readRows] at h
      split at h
      · split at h
        · rename_i p c s heq
          cases hrr : readRows rest n with
          | error e => rw [hrr] at h; simp [Except.map] at h
          | ok rs =>
            rw [hrr] at h
            simp only [Except.map, Except.ok.injEq] at h
            have := ih n rs hrr
            simp [← h]
            omega
        · simp at h
      · have := ih n rows h
        omega

lemma tableRows_inv (tblQ : Option (List String)) (count : ℤ) (rows : List Row)
    (h : tableRows tblQ count = Except.ok rows) (hne : rows ≠ []) :
    0 < count ∧ rows.length ≤ count.toNat := by
  cases tblQ with
  | none =>
    simp only [tableRows, Except.ok.injEq] at h
    exact absurd (by simp [← h]) hne
  | some tbl =>
    simp only [tableRows] at h
    split at h
    · exact ⟨by omega, readRows_length_le tbl count.toNat rows h⟩
    · simp only [Except.ok.injEq] at h
      exact absurd (by simp [← h]) hne

lemma parsePhase_ok_inv (lines : List String) (p : RawParams)
    (h : parsePhase lines = Except.ok p) :
    p.tide_name.length = p.cj.length ∧
    p.tide_name.length = p.sj.length ∧
    p.tide_name.length = p.sub_tide_period.length ∧
    (p.tide_name ≠ [] → 0 < p.no_of_sub_tide ∧
      p.tide_name.length ≤ p.no_of_sub_tide.toNat) := by
  unfold parsePhase at h
  cases hsc : scanLines lines initScan with
  | error e => simp [hsc] at h
  | ok stbl =>
    obtain ⟨st, tblQ⟩ := stbl
    simp only [hsc] at h
    cases htr : tableRows tblQ st.no_of_sub_tide with
    | error e => simp [htr] at h
    | ok rows =>
      simp only [htr, Except.ok.injEq] at h
      subst h
      refine ⟨by simp, by simp, by simp, ?_⟩
      intro hne
      have hrne : rows ≠ [] := by
        intro hr
        apply hne
        simp [hr]
      have := tableRows_inv tblQ st.no_of_sub_tide rows htr hrne
      simpa using this

lemma isSuccess_elim (r : LoadResult) (h : isSuccess r = true) :
    r = LoadResult.success (loadedParams r) := by
  cases r with
  | success p => rfl
  | notFound => simp [isSuccess] at h
  | parseError => simp [isSuccess] at h

/-! ### Concrete fixtures -/

/-- A parameter file whose first data row is well-formed but whose second
row has only two fields: the short row is silently skipped, so the load
succeeds with `no_of_sub_tide = 2` but a single captured constituent. -/
def exFile : List String :=
  [ "Observed Year",
    "2010",
    "分潮數   平均潮位(CM)",
    "2   115.0",
    "  Cj(CM)  Sj(CM)",
    "M2 12.420 10.0 0.5 3.0 4.0",
    "K1 23.93" ]

/-- A well-formed parameter file with one constituent. -/
def gfile : List String :=
  [ "Observed Year",
    "2010",
    "分潮數 平均潮位(CM)",
    "1 115.5",
    "name period amp phase Cj(CM) Sj(CM)",
    "M2 12.42 5.0 0.5 3.0 4.0" ]

/-- A concrete valid predictor state: one constituent of period 12 hours
with coefficients (3, 4), mean level 100 cm, base year 2010. -/
noncomputable def st1 : TidePred :=
  { tp :=
      { param_year := 2010
        h0 := 100
        tide_name := ["M2"]
        cj := [3]
        sj := [4]
        sub_tide_period := [12] }
    no_of_sub_tide := 1 }

/-- Midnight of New Year 2013 (hour offset 0 into the year). -/
noncomputable def tb1 : Timestamp := ⟨2013, 0⟩

lemma st1_valid : validParams st1 := by
  refine ⟨rfl, rfl, rfl, rfl, by decide, by decide, ?_⟩
  intro p hp
  simp only [st1, List.mem_singleton] at hp
  subst hp
  norm_num

/-- A malformed predictor state: the loop bound is 1 but every constituent
list is empty, so the first loop iteration raises `IndexError`. -/
noncomputable def badSt : TidePred :=
  { tp :=
      { param_year := 2013
        h0 := 0
        tide_name := []
        cj := []
        sj := []
        sub_tide_period := [] }
    no_of_sub_tide := 1 }

/-! ### Claims -/

lemma hours_to_zero_lt_of_lt (ay b c : ℤ) (hab : ay ≤ b) (hbc : b < c) :
    hours_to_zero ay b < hours_to_zero ay c := by
  obtain ⟨k, rfl⟩ : ∃ k : ℕ, c = b + 1 + (k : ℤ) := ⟨(c - b - 1).toNat, by omega⟩
  clear hbc
  induction k with
  | zero => simpa using hours_to_zero_lt_succ ay b hab
  | succ k ih =>
    have h1 : b + 1 + ((k + 1 : ℕ) : ℤ) = (b + 1 + (k : ℤ)) + 1 := by push_cast; ring
    have h2 : hours_to_zero ay (b + 1 + (k : ℤ)) <
        hours_to_zero ay ((b + 1 + (k : ℤ)) + 1) :=
      hours_to_zero_lt_succ ay _ (by omega)
    rw [h1]
    omega

lemma hours_to_zero_of_le (ay byr : ℤ) (hle : byr ≤ ay) : hours_to_zero ay byr = 0 := by
  unfold hours_to_zero
  have h0 : (byr - ay).toNat = 0 := by omega
  rw [h0]
  rfl

lemma hours_to_zero_self (ay : ℤ) : hours_to_zero ay ay = 0 :=
  hours_to_zero_of_le ay ay le_rfl

/-- C2 (amended): `hours_to_zero ay by` is 0 when `by ≤ ay`; when `by > ay`
it equals 24 times the sum over every year `ay ≤ y < by` of 366 for leap
years and 365 otherwise; it is strictly monotone in `by` on `by > ay`; a
single-year gap gives exactly 24·365 when the summed year `ay` is not leap
and 24·366 when it is (e.g. ay = 2012, by = 2013 — not ay = 2011,
by = 2012, whose summed year 2011 is not a leap year). -/
theorem c2_hours_to_zero (ay byr : ℤ) :
    (byr ≤ ay → hours_to_zero ay byr = 0) ∧
    (ay < byr → ((hours_to_zero ay byr : ℕ) : ℤ) =
      24 * Finset.sum (Finset.Ico ay byr) (fun y => if isleap y then (366 : ℤ) else 365)) ∧
    (∀ byr2 : ℤ, ay < byr → byr < byr2 →
      hours_to_zero ay byr < hours_to_zero ay byr2) ∧
    (isleap ay = false → hours_to_zero ay (ay + 1) = 24 * 365) ∧
    (isleap ay = true → hours_to_zero ay (ay + 1) = 24 * 366) ∧
    hours_to_zero 2012 2013 = 24 * 366 := by
  refine ⟨hours_to_zero_of_le ay byr, ?_, ?_, ?_, ?_, by decide⟩
  · intro hlt
    obtain ⟨n, rfl⟩ : ∃ n : ℕ, byr = ay + (n : ℤ) := ⟨(byr - ay).toNat, by omega⟩
    rw [hours_to_zero_eq_range_sum, sum_ico_eq_sum_range]
    push_cast
    congr 1
    refine Finset.sum_congr rfl ?_
    intro k _
    unfold days_in_year
    split <;> simp
  · intro byr2 h1 h2
    exact hours_to_zero_lt_of_lt ay byr byr2 (le_of_lt h1) h2
  · intro hnl
    rw [hours_to_zero_succ ay ay le_rfl, hours_to_zero_self]
    unfold days_in_year
    rw [hnl]
    rfl
  · intro hl
    rw [hours_to_zero_succ ay ay le_rfl, hours_to_zero_self]
    unfold days_in_year
    rw [hl]
    rfl

/-- Witness for C2 at concrete years. -/
theorem c2_witness :
    hours_to_zero 2013 2010 = 0 ∧
    hours_to_zero 2013 (2013 + 1) = 24 * 365 ∧
    hours_to_zero 2012 (2012 + 1) = 24 * 366 :=
  ⟨(c2_hours_to_zero 2013 2010).1 (by decide),
   (c2_hours_to_zero 2013 2010).2.2.2.1 (by decide),
   (c2_hours_to_zero 2012 2013).2.2.2.2.1 (by decide)⟩

/-- C2's leap-gap example is false on the code: `hours_to_zero 2011 2012`
sums only the non-leap year 2011, so it equals 24·365, not 24·366. -/
theorem c2_counterexample :
    hours_to_zero 2011 2012 = 24 * 365 ∧ hours_to_zero 2011 2012 ≠ 24 * 366 := by
  decide

/-- C7 (amended): a missing file takes the dedicated `FileNotFoundError`
handler (it can never produce the malformed-content outcome, and an
existing file can never produce NotFound), but both handlers make
`read_tide_params` return the same `-1`, so its caller can distinguish the
two error kinds only by the printed diagnostic, not by the returned
value. -/
theorem c7_error_kinds :
    read_tide_params none = LoadResult.notFound ∧
    (∀ lines : List String, read_tide_params (some lines) ≠ LoadResult.notFound) ∧
    (∀ file, read_tide_params file = LoadResult.notFound → load_code file = -1) ∧
    (∀ file, read_tide_params file = LoadResult.parseError → load_code file = -1) := by
  refine ⟨rfl, ?_, ?_, ?_⟩
  · intro lines
    unfold read_tide_params
    cases hp : parsePhase lines with
    | error e => simp [hp]
    | ok p =>
      simp only [hp]
      split <;> simp
  · intro file h
    simp [load_code, h]
  · intro file h
    simp [load_code, h]

/-- Witness for C7. -/
theorem c7_witness :
    read_tide_params (some ([] : List String)) ≠ LoadResult.notFound ∧
    load_code none = -1 :=
  ⟨c7_error_kinds.2.1 [], c7_error_kinds.2.2.1 none c7_error_kinds.1⟩

/-- C7 as stated is false: the caller of `read_tide_params` receives the
same `-1` for a missing file as for a malformed one (here the empty file),
although the two take distinct handler branches. -/
theorem c7_counterexample :
    load_code none = load_code (some ([] : List String)) ∧
    read_tide_params none = LoadResult.notFound ∧
    read_tide_params (some ([] : List String)) = LoadResult.parseError := by
  decide

/-- C3 (amended): a successful load guarantees exactly the line-88
validation plus the structure of the table read: non-zero base year,
positive count, a non-empty constituent list whose four column lists have
equal length, and at most `no_of_sub_tide` captured rows. It does NOT
guarantee `count = len(constituents)` nor positive periods. -/
theorem c3_load_invariants (file : Option (List String)) (p : RawParams)
    (h : read_tide_params file = LoadResult.success p) :
    p.param_year ≠ 0 ∧ 0 < p.no_of_sub_tide ∧ p.tide_name ≠ [] ∧
    p.tide_name.length = p.cj.length ∧
    p.tide_name.length = p.sj.length ∧
    p.tide_name.length = p.sub_tide_period.length ∧
    p.tide_name.length ≤ p.no_of_sub_tide.toNat := by
  cases file with
  | none => simp [read_tide_params] at h
  | some lines =>
    unfold read_tide_params at h
    cases hp : parsePhase lines with
    | error e => simp [hp] at h
    | ok q =>
      simp only [hp] at h
      by_cases hc : q.param_year = 0 ∨ q.no_of_sub_tide = 0 ∨ q.tide_name = []
      · rw [if_pos hc] at h
        exact absurd h (by simp)
      · rw [if_neg hc] at h
        rw [LoadResult.success.injEq] at h
        subst h
        push_neg at hc
        obtain ⟨hy, hn, hne⟩ := hc
        obtain ⟨l1, l2, l3, hpos⟩ := parsePhase_ok_inv lines q hp
        obtain ⟨hcount, hle⟩ := hpos hne
        exact ⟨hy, hcount, hne, l1, l2, l3, hle⟩

/-- Witness for C3 at a well-formed one-constituent file. -/
theorem c3_witness :
    (loadedParams (read_tide_params (some gfile))).param_year ≠ 0 ∧
    0 < (loadedParams (read_tide_params (some gfile))).no_of_sub_tide ∧
    (loadedParams (read_tide_params (some gfile))).tide_name ≠ [] ∧
    (loadedParams (read_tide_params (some gfile))).tide_name.length =
      (loadedParams (read_tide_params (some gfile))).cj.length ∧
    (loadedParams (read_tide_params (some gfile))).tide_name.length =
      (loadedParams (read_tide_params (some gfile))).sj.length ∧
    (loadedParams (read_tide_params (some gfile))).tide_name.length =
      (loadedParams (read_tide_params (some gfile))).sub_tide_period.length ∧
    (loadedParams (read_tide_params (some gfile))).tide_name.length ≤
      (loadedParams (read_tide_params (some gfile))).no_of_sub_tide.toNat :=
  c3_load_invariants (some gfile) (loadedParams (read_tide_params (some gfile)))
    (isSuccess_elim _ (by decide))

/-- C3 as stated is false: `read_tide_params` accepts `exFile` although the
stored count is 2 while only one constituent was captured (the short second
row was skipped), and the main flow then proceeds to prediction with this
invariant-violating set. -/
theorem c3_counterexample :
    isSuccess (read_tide_params (some exFile)) = true ∧
    (loadedParams (read_tide_params (some exFile))).no_of_sub_tide = 2 ∧
    (loadedParams (read_tide_params (some exFile))).tide_name.length = 1 ∧
    (run_prediction (some exFile) 2013).isSome = true := by
  refine ⟨by decide, by decide, by decide, ?_⟩
  have h : read_tide_params (some exFile) =
      LoadResult.success (loadedParams (read_tide_params (some exFile))) :=
    isSuccess_elim _ (by decide)
  rw [run_prediction, h]
  rfl

/-- C4: a conversion failure in the scan or table phase, or a scanned
result with zero base year, zero count, or no captured constituent name,
makes `read_tide_params` report the parse-failure outcome (distinct from
success), and the main flow then performs no prediction at all. -/
theorem c4_parse_error_aborts (lines : List String) (year : ℤ)
    (h : parsePhase lines = Except.error () ∨
      ∃ p, parsePhase lines = Except.ok p ∧
        (p.param_year = 0 ∨ p.no_of_sub_tide = 0 ∨ p.tide_name = [])) :
    read_tide_params (some lines) = LoadResult.parseError ∧
    run_prediction (some lines) year = none := by
  have hrt : read_tide_params (some lines) = LoadResult.parseError := by
    rcases h with h | ⟨p, hp, hcond⟩
    · simp [read_tide_params, h]
    · simp only [read_tide_params, hp]
      rw [if_pos hcond]
  exact ⟨hrt, by simp [run_prediction, hrt]⟩

/-- Witness for C4: the empty file scans to the all-zero state, fails the
validation, and the main flow aborts before any prediction. -/
theorem c4_witness :
    read_tide_params (some ([] : List String)) = LoadResult.parseError ∧
    run_prediction (some ([] : List String)) 2013 = none :=
  c4_parse_error_aborts [] 2013 (Or.inr ⟨emptyRaw, rfl, Or.inl rfl⟩)

/-- C6 (amended): each data row is split on runs of spaces (lenient about
alignment); a row with at least six fields whose period, cosine or sine
field fails float conversion aborts the table read with the error that
becomes a ParseError; but a row with fewer than six fields is silently
skipped, not rejected. -/
theorem c6_row_strictness (line : String) (rest : List String) (n : ℕ) :
    ((pySplitSpaceL (pyStripL line.data)).length < 6 →
      readRows (line :: rest) (n + 1) = readRows rest n) ∧
    (6 ≤ (pySplitSpaceL (pyStripL line.data)).length →
      (pyFloatL ((pySplitSpaceL (pyStripL line.data)).getD 1 []) = none ∨
       pyFloatL ((pySplitSpaceL (pyStripL line.data)).getD 4 []) = none ∨
       pyFloatL ((pySplitSpaceL (pyStripL line.data)).getD 5 []) = none) →
      readRows (line :: rest) (n + 1) = Except.error ()) := by
  constructor
  · intro hlt
    simp only [readRows]
    rw [if_neg (by omega)]
  · intro hge hnone
    simp only [readRows]
    rw [if_pos hge]
    cases hp1 : pyFloatL ((pySplitSpaceL (pyStripL line.data)).getD 1 []) with
    | none => simp [hp1]
    | some q1 =>
      cases hp4 : pyFloatL ((pySplitSpaceL (pyStripL line.data)).getD 4 []) with
      | none => simp [hp1, hp4]
      | some q4 =>
        cases hp5 : pyFloatL ((pySplitSpaceL (pyStripL line.data)).getD 5 []) with
        | none => simp [hp1, hp4, hp5]
        | some q5 =>
          rcases hnone with h | h | h
          · rw [h] at hp1; exact Option.noConfusion hp1
          · rw [h] at hp4; exact Option.noConfusion hp4
          · rw [h] at hp5; exact Option.noConfusion hp5

/-- Witness for C6: a two-field row is skipped; a six-field row with a
non-numeric period field is an error. -/
theorem c6_witness :
    readRows ["K1 23.93"] 1 = readRows [] 0 ∧
    readRows ["M2 abc 1.0 2.0 3.0 4.0"] 1 = Except.error () :=
  ⟨(c6_row_strictness "K1 23.93" [] 0).1 (by decide),
   (c6_row_strictness "M2 abc 1.0 2.0 3.0 4.0" [] 0).2 (by decide) (Or.inl (by decide))⟩

/-- C6 as stated is false: the last row of `exFile` splits into only two
fields, yet the load succeeds — the under-filled row is skipped rather than
rejected with a ParseError. -/
theorem c6_counterexample :
    exFile.getD 6 "" = "K1 23.93" ∧
    (pySplitSpaceL (pyStripL ("K1 23.93").data)).length < 6 ∧
    isSuccess (read_tide_params (some exFile)) = true := by
  decide

/-- C1: for every valid parameter set and every timestamp, `tidal_pred`
returns `0.01 · (meanLevel + Σᵢ cjᵢ·cos(2π·t/periodᵢ) + sjᵢ·sin(2π·t/periodᵢ))`
where `t = t0 + shiftHours`, `t0` is the hour count from one hour before
New Year 00:00 of the timestamp's year to the timestamp (`tb.hours + 1`),
and `shiftHours = hours_to_zero(baseYear, tb.year)`. -/
theorem c1_predict_formula (st : TidePred) (tb : Timestamp) (h : validParams st) :
    tidal_pred st tb = Except.ok (0.01 * (st.tp.h0 +
      Finset.sum (Finset.range st.no_of_sub_tide) (fun (i : ℕ) =>
        st.tp.cj.getD i 0 * Real.cos (2 * Real.pi *
          ((tb.hours + 1) + ((hours_to_zero st.tp.param_year tb.year : ℕ) : ℝ)) /
          st.tp.sub_tide_period.getD i 0) +
        st.tp.sj.getD i 0 * Real.sin (2 * Real.pi *
          ((tb.hours + 1) + ((hours_to_zero st.tp.param_year tb.year : ℕ) : ℝ)) /
          st.tp.sub_tide_period.getD i 0)))) :=
  tidal_pred_ok st tb h

/-- Witness for C1 at the concrete valid set `st1` and timestamp `tb1`. -/
theorem c1_witness :
    tidal_pred st1 tb1 = Except.ok (0.01 * (st1.tp.h0 +
      Finset.sum (Finset.range st1.no_of_sub_tide) (fun (i : ℕ) =>
        st1.tp.cj.getD i 0 * Real.cos (2 * Real.pi *
          ((tb1.hours + 1) + ((hours_to_zero st1.tp.param_year tb1.year : ℕ) : ℝ)) /
          st1.tp.sub_tide_period.getD i 0) +
        st1.tp.sj.getD i 0 * Real.sin (2 * Real.pi *
          ((tb1.hours + 1) + ((hours_to_zero st1.tp.param_year tb1.year : ℕ) : ℝ)) /
          st1.tp.sub_tide_period.getD i 0)))) :=
  c1_predict_formula st1 tb1 st1_valid

/-- C5 (amended): on a parameter set satisfying the load invariants,
`tidal_pred` is total — it returns a value for every timestamp (the model
is pure: no I/O appears anywhere in it); on malformed sets the possible
failures are an out-of-range constituent access (`IndexError`) as well as a
division by a zero period, not division alone. -/
theorem c5_predict_total (st : TidePred) (tb : Timestamp) (h : validParams st) :
    ∃ y : ℝ, tidal_pred st tb = Except.ok y :=
  ⟨_, tidal_pred_ok st tb h⟩

/-- Witness for C5. -/
theorem c5_witness : ∃ y : ℝ, tidal_pred st1 tb1 = Except.ok y :=
  c5_predict_total st1 tb1 st1_valid

/-- C5's failure-mode clause is false: on a malformed set whose loop bound
exceeds the list lengths, `tidal_pred` fails with `IndexError`, which is a
failure other than division by a zero period. -/
theorem c5_counterexample :
    tidal_pred badSt ⟨2013, 0⟩ = Except.error PyErr.indexError ∧
    PyErr.indexError ≠ PyErr.zeroDiv := by
  constructor
  · rfl
  · decide

/-- C8: for every valid parameter set and year, the annual grid is
day-major and hour-minor with exactly `days_in_year year` rows (366 for a
leap year by the same leap rule, else 365) of 24 cells, and the cell at
(d, h) is the prediction at `Jan 1 of year + d days + h hours`. -/
theorem c8_grid (st : TidePred) (year : ℤ) (hv : validParams st) :
    (generate_hourly_report st year).length = days_in_year year ∧
    days_in_year year = (if isleap year then 366 else 365) ∧
    (∀ row ∈ generate_hourly_report st year, row.length = 24) ∧
    (∀ d hj : ℕ, d < days_in_year year → hj < 24 →
      ((generate_hourly_report st year).getD d []).getD hj (Except.error PyErr.indexError) =
        tidal_pred st ⟨year, ((24 * d + hj : ℕ) : ℝ)⟩) := by
  refine ⟨by simp [generate_hourly_report], rfl, ?_, ?_⟩
  · intro row hrow
    simp only [generate_hourly_report, List.mem_map] at hrow
    obtain ⟨i, _, rfl⟩ := hrow
    simp
  · intro d hj hd hh
    have hd2 : d < (List.map (fun (i : ℕ) =>
        (List.range 24).map (fun (j : ℕ) =>
          tidal_pred st ⟨year, ((24 * i + j : ℕ) : ℝ)⟩)) (List.range (days_in_year year))).length := by
      simpa using hd
    have hd3 : d < (List.range (days_in_year year)).length := by simpa using hd
    unfold generate_hourly_report
    rw [List.getD_eq_getElem _ _ hd2]
    rw [List.getElem_map]
    have hh2 : hj < (List.map (fun (j : ℕ) =>
        tidal_pred st ⟨year, ((24 * (List.range (days_in_year year))[d] + j : ℕ) : ℝ)⟩)
          (List.range 24)).length := by
      simpa using hh
    rw [List.getD_eq_getElem _ _ hh2]
    rw [List.getElem_map]
    simp

/-- Witness for C8 at the concrete valid set `st1` and the leap year
2012. -/
theorem c8_witness :
    (generate_hourly_report st1 2012).length = 366 ∧
    ((generate_hourly_report st1 2012).getD 1 []).getD 2 (Except.error PyErr.indexError) =
      tidal_pred st1 ⟨2012, ((24 * 1 + 2 : ℕ) : ℝ)⟩ := by
  obtain ⟨hlen, hdays, hrows, hcell⟩ := c8_grid st1 2012 st1_valid
  refine ⟨?_, hcell 1 2 (by decide) (by decide)⟩
  rw [hlen]
  decide

/-- C9: `calculate_rmse` equals the square root of the mean of
`(predicted − observed)²` over the positional pairs; it is exactly 0 on the
empty pair set and exactly 0 on identical sequences. -/
theorem c9_rmse (observed predicted : List ℝ) :
    calculate_rmse observed predicted =
      Real.sqrt ((List.zipWith (fun o p => (p - o) ^ 2) observed predicted).sum /
        ((List.zipWith (fun o p => (p - o) ^ 2) observed predicted).length : ℝ)) ∧
    calculate_rmse [] [] = 0 ∧
    (∀ l : List ℝ, calculate_rmse l l = 0) := by
  refine ⟨calculate_rmse_eq_sqrt observed predicted, by simp [calculate_rmse], ?_⟩
  intro l
  rw [calculate_rmse_eq_sqrt]
  have hz : List.zipWith (fun o p => (p - o) ^ 2) l l = List.map (fun _ => (0 : ℝ)) l := by
    induction l with
    | nil => simp
    | cons a l ih => simp [ih]
  rw [hz]
  simp

/-- C10: with lists of unequal length, `calculate_rmse` silently pairs
positionally up to the shorter length and ignores the surplus of the longer
list; if either list is empty the result is 0 regardless of the other. -/
theorem c10_rmse_truncates (observed predicted : List ℝ) :
    calculate_rmse observed predicted =
      calculate_rmse (observed.take (min observed.length predicted.length))
        (predicted.take (min observed.length predicted.length)) ∧
    calculate_rmse [] predicted = 0 ∧
    calculate_rmse observed [] = 0 := by
  refine ⟨?_, by simp [calculate_rmse], by simp [calculate_rmse]⟩
  unfold calculate_rmse
  rw [← zipWith_take_min]

end TidePredWeb
